import Mathlib

/-!
Verification of the dremailer store-and-forward mail relay.

The development shallowly embeds the core of `src/dremailer.ts` (class
`DRemailer`), `src/dmailsender.ts` (class `DMailSender`, shipped here as an
unnamed source part), `src/routes.ts` (`startRemailerControlApi`),
`src/main.ts` (`checkApiKey`) and `src/utils.ts` (`findFiles`).

Modelling conventions:
- JavaScript strings are Lean `String`; operations such as
  `split('.')`, `join`, `replace(/[@.]/g,"-")`, `trim` are re-implemented
  over `String.data` (lists of characters) so that concrete instances
  reduce inside the kernel; each mirrors the ECMAScript behaviour of the
  call it replaces.
- File-system paths built by `path.join(folder, name)` are kept structured
  as a `FPath` pair, so `path.basename` is the `base` projection.
- External effects (the clock, stream outcomes, the upstream SMTP
  round-trip, `fs.existsSync`, `fs.readdir`) are inputs to the embedded
  functions; issued file-system operations (`createWriteStream`,
  `fs.rename`, `fs.unlink`) are recorded in an effect list.
- A JS promise that settles is an explicit result value; `undefined`
  returns and JS truthiness are modelled where the source relies on them.
-/

namespace Dremailer

/-- `path.join(folder, name)`: a path kept as its directory and base name. -/
structure FPath where
  dir : String
  base : String
deriving DecidableEq, Repr

/-- A file-system operation issued by the code. -/
inductive FsOp
  | create (p : FPath)
  | rename (src dst : FPath)
  | unlink (p : FPath)
deriving DecidableEq, Repr

/-- Outcome of a JS promise: resolved with a value or rejected with an error. -/
inductive PromiseRes
  | resolved (v : String)
  | failed (e : String)
deriving DecidableEq, Repr

/-- The configuration fields of `DRemailerConfig` that the embedded
operations read. -/
structure RConfig where
  listenerAddress : Option String
  listenerPort : Option Nat
  listenerSecure : Bool
  listenerLmtp : Bool
  senderSmtpHost : Option String
  senderSmtpPort : Option Nat
  senderSmtpSecure : Bool
  senderIgnoreInvalidCert : Bool
  senderLmtp : Bool
  backupEnabled : Bool
deriving DecidableEq, Repr

/-- The mutable state of a `DRemailer` instance.  `smtpServer` records
whether the SMTP server object exists, `mailSenderPresent` whether the
static `mailSender` was constructed, and `mailSenderReady` its
`status.ready` flag. -/
structure RState where
  config : RConfig
  statusReady : Bool
  statusMessage : String
  smtpServer : Bool
  mailSenderPresent : Bool
  mailSenderReady : Bool
  timerIntervalMs : Nat
  emlParkingDir : Option String
  emlDirectDir : Option String
  emlErrorDir : Option String
  emlParkingBackupDir : Option String
  emlDirectBackupDir : Option String
  emlParkingQueue : List String
  emlDirectQueue : List String
  emlErrorQueue : List String
  emlParkingBackupQueue : List String
  emlDirectBackupQueue : List String
  emlScanning : Bool
  listenerRunning : Bool
  senderPaused : Bool
  listenerPaused : Bool
deriving DecidableEq, Repr

/-- The part of an `SMTPServerSession` that `onData`/`saveEmailToDisk`
read: the session id, `envelope.mailFrom.address` (absent when
`mailFrom` is `false`) and the `envelope.rcptTo` addresses. -/
structure Session where
  id : String
  mailFrom : Option String
  rcptTo : Option (List String)
deriving DecidableEq, Repr

/-- JS truthiness of a possibly-undefined string (undefined and `""` are
falsy). -/
def jsTruthyS : Option String → Bool
  | none => false
  | some v => !(v == "")

/-- `address.replace(/[@.]/g, "-")`: replace every `@` and `.` by `-`. -/
def jsReplaceAtDot (s : String) : String :=
  String.mk (s.data.map (fun c => if c = '@' ∨ c = '.' then '-' else c))

/-- `list.join(sep)` on JS arrays of strings. -/
def jsJoin (sep : String) : List String → String
  | [] => ""
  | [a] => a
  | a :: rest => a ++ sep ++ jsJoin sep rest

/-- Character-level worker for `String.split('.')`. -/
def splitDotChars : List Char → List (List Char)
  | [] => [[]]
  | c :: rest =>
    let r := splitDotChars rest
    if c = '.' then [] :: r
    else
      match r with
      | [] => [[c]]
      | h :: t => (c :: h) :: t

/-- `name.split('.').pop()`: the last dot-separated component (`split`
never yields an empty array, so `pop` is always defined). -/
def jsExtPop (s : String) : Option String :=
  ((splitDotChars s.data).map String.mk).getLast?

/-- The file name computed by `saveEmailToDisk`:
`currentDate + "_" + session.id + "_" + fromAddr + "_" + toAddrStr + ".eml"`
where `currentDate` is the digit-only ISO timestamp read from the clock
(passed in as `ts`), a missing `mailFrom` yields the placeholder `"bho"`,
and a missing `rcptTo` yields the empty address list. -/
def saveFileName (ts : String) (sessionId : String)
    (mailFrom : Option String) (rcptTo : Option (List String)) : String :=
  let fromAddr := match mailFrom with
    | some a => jsReplaceAtDot a
    | none => "bho"
  let toAddr := match rcptTo with
    | some l => l
    | none => []
  let toAddrStr := jsJoin "-" (toAddr.map jsReplaceAtDot)
  ts ++ "_" ++ sessionId ++ "_" ++ fromAddr ++ "_" ++ toAddrStr ++ ".eml"

/-! ## Storage scanning -/

/-- One entry of a directory listing (`fs.Dirent`). -/
structure DirEntry where
  name : String
  isDirectory : Bool
deriving DecidableEq, Repr

/-- The file system visible to the scanner: existence of directories and
their listings in enumeration order. -/
structure Fs where
  fsExists : String → Bool
  listing : String → List DirEntry

/-- The five-queue snapshot `DRemailerStorage`. -/
structure DRemailerStorage where
  parking : List String
  direct : List String
  error : List String
  parkingBackup : List String
  directBackup : List String
deriving DecidableEq, Repr

/-- The filter applied by `scanStorageSync` and `findFiles`:
`!item.isDirectory() && item.name.split('.').pop() == "eml"`, then map to
the name. -/
def scanFilterEml (l : List DirEntry) : List String :=
  (l.filter (fun e => !e.isDirectory && (jsExtPop e.name == some "eml"))).map
    (fun e => e.name)

/-- `utils.findFiles(folderPath, extFilter)` applied to a listing. -/
def findFiles (l : List DirEntry) (extFilter : Option String) : List String :=
  (l.filter (fun e =>
    !e.isDirectory &&
      (match extFilter with
       | some ext => jsExtPop e.name == some ext
       | none => true))).map (fun e => e.name)

/-- `isStorageReady(true)`: requires all five directories set, checks each
with `fs.existsSync`, clearing the field of a vanished directory, and
returns whether all were found (with the possibly mutated state). -/
def isStorageReadyChecked (s : RState) (ex : String → Bool) : Bool × RState :=
  match s.emlParkingDir, s.emlDirectDir, s.emlErrorDir,
        s.emlParkingBackupDir, s.emlDirectBackupDir with
  | some pd, some dd, some ed, some pbd, some dbd =>
    let s' := { s with
      emlParkingDir := if ex pd then some pd else none
      emlDirectDir := if ex dd then some dd else none
      emlErrorDir := if ex ed then some ed else none
      emlParkingBackupDir := if ex pbd then some pbd else none
      emlDirectBackupDir := if ex dbd then some dbd else none }
    (ex pd && ex dd && ex ed && ex pbd && ex dbd, s')
  | _, _, _, _, _ => (false, s)

/-- `scanStorageSync`: on unavailable storage clear all queues and mark not
ready; when a scan is already running do nothing; otherwise replace the
five queues with the filtered listings (the transient `emlScanning = true`
is cleared before returning) and return the snapshot. -/
def scanStorageSync (s : RState) (fs : Fs) : Option DRemailerStorage × RState :=
  let c := isStorageReadyChecked s fs.fsExists
  if !c.1 then
    (none, { c.2 with
      emlParkingQueue := [], emlDirectQueue := [], emlErrorQueue := []
      emlParkingBackupQueue := [], emlDirectBackupQueue := []
      statusReady := false
      statusMessage := "Parking storage folder not available" })
  else if c.2.emlScanning then
    (none, c.2)
  else
    let parkingQ := scanFilterEml (fs.listing (c.2.emlParkingDir.getD ""))
    let directQ := scanFilterEml (fs.listing (c.2.emlDirectDir.getD ""))
    let errorQ := scanFilterEml (fs.listing (c.2.emlErrorDir.getD ""))
    let parkingBackupQ := scanFilterEml (fs.listing (c.2.emlParkingBackupDir.getD ""))
    let directBackupQ := scanFilterEml (fs.listing (c.2.emlDirectBackupDir.getD ""))
    (some ⟨parkingQ, directQ, errorQ, parkingBackupQ, directBackupQ⟩,
     { c.2 with
        emlParkingQueue := parkingQ, emlDirectQueue := directQ
        emlErrorQueue := errorQ, emlParkingBackupQueue := parkingBackupQ
        emlDirectBackupQueue := directBackupQ
        statusReady := true, statusMessage := "eml files scanning end"
        emlScanning := false })

/-- `scanStorageAsync`: same guards and filter as the sync version via
`findFiles(dir, "eml")`, but rejects its promise on failure and leaves
`status` untouched on success. -/
def scanStorageAsync (s : RState) (fs : Fs) :
    (Except String DRemailerStorage) × RState :=
  let c := isStorageReadyChecked s fs.fsExists
  if !c.1 then
    (Except.error "Parking storage folder not available",
     { c.2 with
        emlParkingQueue := [], emlDirectQueue := [], emlErrorQueue := []
        emlParkingBackupQueue := [], emlDirectBackupQueue := []
        statusReady := false
        statusMessage := "Parking storage folder not available" })
  else if c.2.emlScanning then
    (Except.error "Already scanning...", c.2)
  else
    let parkingQ := findFiles (fs.listing (c.2.emlParkingDir.getD "")) (some "eml")
    let directQ := findFiles (fs.listing (c.2.emlDirectDir.getD "")) (some "eml")
    let errorQ := findFiles (fs.listing (c.2.emlErrorDir.getD "")) (some "eml")
    let parkingBackupQ := findFiles (fs.listing (c.2.emlParkingBackupDir.getD "")) (some "eml")
    let directBackupQ := findFiles (fs.listing (c.2.emlDirectBackupDir.getD "")) (some "eml")
    (Except.ok ⟨parkingQ, directQ, errorQ, parkingBackupQ, directBackupQ⟩,
     { c.2 with
        emlParkingQueue := parkingQ, emlDirectQueue := directQ
        emlErrorQueue := errorQ, emlParkingBackupQueue := parkingBackupQ
        emlDirectBackupQueue := directBackupQ
        emlScanning := false })

/-! ## Forwarding -/

/-- Effects of `forward`: the settled promise, the file-system operations
issued, and the counts of fired callbacks.  Completion errors of the
asynchronous `fs.rename` inside `moveToError` are reported from its
callback and are not modelled. -/
structure ForwardOut where
  result : PromiseRes
  fsOps : List FsOp
  errorCount : Nat
  forwardingCount : Nat
  forwardedCount : Nat
deriving DecidableEq, Repr

/-- `moveToError(emlFilename, error)`: with the error directory
unavailable, fire `onError` and do nothing; otherwise issue the rename of
the file into the error directory.  Returns (issued operations, `onError`
count). -/
def moveToError (errorDir : Option String) (p : FPath) : List FsOp × Nat :=
  match errorDir with
  | none => ([], 1)
  | some ed => ([FsOp.rename p ⟨ed, p.base⟩], 0)

/-- `forward(emlFilename)`: fire `onForwarding`; reject when the static
`mailSender` is missing; otherwise settle as the upstream
`forwardEml` round-trip did (`upstream` input), moving the file to the
error directory and firing `onError` on failure. -/
def forward (mailSenderPresent : Bool) (errorDir : Option String) (p : FPath)
    (upstream : PromiseRes) : ForwardOut :=
  if !mailSenderPresent then
    { result := .failed "Cannot forward, <mailSender> is not ready"
      fsOps := [], errorCount := 0, forwardingCount := 1, forwardedCount := 0 }
  else
    match upstream with
    | .resolved info =>
      { result := .resolved info, fsOps := [], errorCount := 0
        forwardingCount := 1, forwardedCount := 1 }
    | .failed e =>
      let me := moveToError errorDir p
      { result := .failed e, fsOps := me.1, errorCount := me.2 + 1
        forwardingCount := 1, forwardedCount := 0 }

/-- The JS return value of `forwardOne()`: `false`, `undefined`, the
server info, or the error object. -/
inductive FwdOneRet
  | retFalse
  | retUndefined
  | retInfo (info : String)
  | retErr (e : String)
deriving DecidableEq, Repr

/-- Result of one `forwardOne()` call. -/
structure FwdOneOut where
  state : RState
  ret : FwdOneRet
  fsOps : List FsOp
  errorCount : Nat
  forwardingCount : Nat
  forwardedCount : Nat
deriving DecidableEq, Repr

/-- `forwardOne()`: with no parking directory clear the queue, mark not
ready and return `false`; with an empty queue return `undefined`; else pop
the head, `forward` it, and on success move it to the parking backup
(backup enabled; a backup failure is swallowed) or unlink it, while on
failure re-push the name to the tail of the queue and return the error. -/
def forwardOne (s : RState) (upstream : PromiseRes) (unlinkOk : Bool) : FwdOneOut :=
  match s.emlParkingDir with
  | none =>
    { state := { s with
        emlParkingQueue := []
        statusReady := false
        statusMessage := "Parking storage folder not available" }
      ret := .retFalse, fsOps := [], errorCount := 1
      forwardingCount := 0, forwardedCount := 0 }
  | some pd =>
    match s.emlParkingQueue with
    | [] =>
      { state := s, ret := .retUndefined, fsOps := [], errorCount := 0
        forwardingCount := 0, forwardedCount := 0 }
    | emlName :: rest =>
      let p : FPath := ⟨pd, emlName⟩
      let fw := forward s.mailSenderPresent s.emlErrorDir p upstream
      match fw.result with
      | .resolved info =>
        if s.config.backupEnabled then
          match s.emlParkingBackupDir with
          | some bd =>
            { state := { s with emlParkingQueue := rest }
              ret := .retInfo info
              fsOps := fw.fsOps ++ [FsOp.rename p ⟨bd, emlName⟩]
              errorCount := fw.errorCount
              forwardingCount := fw.forwardingCount
              forwardedCount := fw.forwardedCount }
          | none =>
            { state := { s with emlParkingQueue := rest }
              ret := .retInfo info
              fsOps := fw.fsOps
              errorCount := fw.errorCount + 1
              forwardingCount := fw.forwardingCount
              forwardedCount := fw.forwardedCount }
        else
          { state := { s with emlParkingQueue := rest }
            ret := .retInfo info
            fsOps := fw.fsOps ++ [FsOp.unlink p]
            errorCount := fw.errorCount + (if unlinkOk then 0 else 1)
            forwardingCount := fw.forwardingCount
            forwardedCount := fw.forwardedCount }
      | .failed e =>
        { state := { s with emlParkingQueue := rest ++ [emlName] }
          ret := .retErr e
          fsOps := fw.fsOps
          errorCount := fw.errorCount
          forwardingCount := fw.forwardingCount
          forwardedCount := fw.forwardedCount }

/-! ## Ingress DATA handler -/

/-- Observable outcome of one `onData` invocation.  `response` is the
SMTP completion callback: `none` when the callback was never invoked,
`some none` for `callback()` (250 OK) and `some (some e)` for
`callback(err)`. -/
structure DataOut where
  state : RState
  pipedNull : Bool
  response : Option (Option String)
  rejectCount : Nat
  fsOps : List FsOp
  savingCount : Nat
  savedCount : Nat
  forwardingCount : Nat
  forwardedCount : Nat
  errorCount : Nat
deriving DecidableEq, Repr

/-- The repeated rejection pattern of `onData`: pipe the body into
`nullStream()`, invoke `callback(err)` and fire `onReject`. -/
def rejectOut (s : RState) (msg : String) : DataOut :=
  { state := s, pipedNull := true, response := some (some msg)
    rejectCount := 1, fsOps := [], savingCount := 0, savedCount := 0
    forwardingCount := 0, forwardedCount := 0, errorCount := 0 }

/-- `onData(stream, session, callback)`.  `ts` is the digit-only ISO
timestamp read from the clock inside `saveEmailToDisk`; `saveResult` is
the outcome of streaming the body to disk (`some e` = stream error);
`upstream` is the upstream forward outcome used on the direct live path;
`unlinkOk` the outcome of the direct-mode unlink. -/
def onData (s : RState) (sess : Session) (ts : String)
    (saveResult : Option String) (upstream : PromiseRes) (unlinkOk : Bool) :
    DataOut :=
  if !s.statusReady then
    rejectOut s ("Remailer not ready: " ++ s.statusMessage)
  else if s.listenerPaused then
    rejectOut s "Remailer paused, please try later"
  else if s.timerIntervalMs > 0 then
    match s.emlParkingDir with
    | none => rejectOut s "Parking storage folder not available"
    | some pd =>
      let fn := saveFileName ts sess.id sess.mailFrom sess.rcptTo
      match saveResult with
      | none =>
        { state := { s with emlParkingQueue := s.emlParkingQueue ++ [fn] }
          pipedNull := false, response := some none, rejectCount := 0
          fsOps := [FsOp.create ⟨pd, fn⟩], savingCount := 1, savedCount := 1
          forwardingCount := 0, forwardedCount := 0, errorCount := 0 }
      | some e =>
        { state := s, pipedNull := false
          response := some (some ("Error saving email to disk:" ++ e))
          rejectCount := 1, fsOps := [FsOp.create ⟨pd, fn⟩]
          savingCount := 1, savedCount := 0
          forwardingCount := 0, forwardedCount := 0, errorCount := 1 }
  else
    match s.emlDirectDir with
    | none => rejectOut s "Direct storage folder not available"
    | some dd =>
      let fn := saveFileName ts sess.id sess.mailFrom sess.rcptTo
      match saveResult with
      | some e =>
        { state := s, pipedNull := false
          response := some (some ("Error saving email to disk:" ++ e))
          rejectCount := 1, fsOps := [FsOp.create ⟨dd, fn⟩]
          savingCount := 1, savedCount := 0
          forwardingCount := 0, forwardedCount := 0, errorCount := 1 }
      | none =>
        if s.senderPaused then
          -- saved, but neither forwarded nor acknowledged: the source
          -- skips the whole dispatch block and never invokes `callback`
          { state := s, pipedNull := false, response := none
            rejectCount := 0, fsOps := [FsOp.create ⟨dd, fn⟩]
            savingCount := 1, savedCount := 1
            forwardingCount := 0, forwardedCount := 0, errorCount := 0 }
        else
          let p : FPath := ⟨dd, fn⟩
          let fw := forward s.mailSenderPresent s.emlErrorDir p upstream
          match fw.result with
          | .resolved _ =>
            if s.config.backupEnabled then
              match s.emlDirectBackupDir with
              | some bd =>
                { state := s, pipedNull := false, response := some none
                  rejectCount := 0
                  fsOps := [FsOp.create ⟨dd, fn⟩] ++ fw.fsOps
                    ++ [FsOp.rename p ⟨bd, fn⟩]
                  savingCount := 1, savedCount := 1
                  forwardingCount := fw.forwardingCount
                  forwardedCount := fw.forwardedCount
                  errorCount := fw.errorCount }
              | none =>
                { state := s, pipedNull := false, response := some none
                  rejectCount := 0
                  fsOps := [FsOp.create ⟨dd, fn⟩] ++ fw.fsOps
                  savingCount := 1, savedCount := 1
                  forwardingCount := fw.forwardingCount
                  forwardedCount := fw.forwardedCount
                  errorCount := fw.errorCount + 1 }
            else
              { state := s, pipedNull := false, response := some none
                rejectCount := 0
                fsOps := [FsOp.create ⟨dd, fn⟩] ++ fw.fsOps ++ [FsOp.unlink p]
                savingCount := 1, savedCount := 1
                forwardingCount := fw.forwardingCount
                forwardedCount := fw.forwardedCount
                errorCount := fw.errorCount + (if unlinkOk then 0 else 1) }
          | .failed e =>
            { state := s, pipedNull := false, response := some (some e)
              rejectCount := 1
              fsOps := [FsOp.create ⟨dd, fn⟩] ++ fw.fsOps
              savingCount := 1, savedCount := 1
              forwardingCount := fw.forwardingCount
              forwardedCount := fw.forwardedCount
              errorCount := fw.errorCount }

/-! ## Operator pause commands -/

/-- Log levels of `DLogger` (`log.d` / `log.i` / `log.w` / `log.e`). -/
inductive LogLevel
  | dbg
  | info
  | warn
  | err
deriving DecidableEq, Repr

/-- `suspendSender(suspended)`: always logs the debug trace, logs the
pause/un-pause notice only when the flag changes, then stores the flag. -/
def suspendSender (s : RState) (suspended : Bool) :
    RState × List (LogLevel × String) :=
  let changeLogs :=
    if s.senderPaused != suspended then
      [if suspended then (LogLevel.warn, "Sender manual PAUSED")
       else (LogLevel.info, "Sender manual UN-PAUSED")]
    else []
  ({ s with senderPaused := suspended },
   (LogLevel.dbg, "Suspending sender...") :: changeLogs)

/-- `suspendListener(suspended)`: logs only when the flag changes (and the
un-pause notice only when the SMTP server object exists), then stores the
flag. -/
def suspendListener (s : RState) (suspended : Bool) :
    RState × List (LogLevel × String) :=
  let logs :=
    if s.listenerPaused != suspended then
      if suspended then [(LogLevel.warn, "Listener manual PAUSED")]
      else if s.smtpServer then [(LogLevel.info, "Listener manual UN-PAUSED")]
      else []
    else []
  ({ s with listenerPaused := suspended }, logs)

/-! ## Status summary -/

/-- `DRemailerStatus.listener`. -/
structure DListener where
  ready : Bool
  running : Bool
  address : String
  port : Nat
  mode : String
  tls : Bool
deriving DecidableEq, Repr

/-- `DRemailerStatus.sender`. -/
structure DSender where
  ready : Bool
  running : Bool
  host : String
  port : Nat
  mode : String
  tls : Bool
  ignoreCRT : Bool
deriving DecidableEq, Repr

/-- `DRemailerStatus.timer`. -/
structure DTimer where
  enabled : Bool
  sec : Nat
deriving DecidableEq, Repr

/-- `DRemailerStatus.storage`. -/
structure DStorage where
  ready : Bool
deriving DecidableEq, Repr

/-- The status snapshot returned by `getSummary`. -/
structure DRemailerStatus where
  listener : DListener
  sender : DSender
  timer : DTimer
  storage : DStorage
deriving DecidableEq, Repr

/-- `isListenerReady()`: the SMTP server object exists. -/
def isListenerReady (s : RState) : Bool := s.smtpServer

/-- `isSenderReady()`: a sender host is configured (JS truthiness), the
static `mailSender` exists and its status is ready. -/
def isSenderReady (s : RState) : Bool :=
  jsTruthyS s.config.senderSmtpHost && s.mailSenderPresent && s.mailSenderReady

/-- `getSummary()`: builds the status snapshot; `storage.ready` calls
`isStorageReady(true)`, which may clear vanished directory fields, so the
(possibly mutated) state is returned alongside. -/
def getSummary (s : RState) (ex : String → Bool) : DRemailerStatus × RState :=
  let st := isStorageReadyChecked s ex
  ({ listener :=
      { ready := isListenerReady s
        running := !s.listenerPaused
        address := s.config.listenerAddress.getD ""
        port := s.config.listenerPort.getD 0
        mode := if s.config.listenerLmtp then "LMTP" else "SMTP"
        tls := s.config.listenerSecure }
     sender :=
      { ready := isSenderReady s
        running := !s.senderPaused
        host := s.config.senderSmtpHost.getD ""
        port := s.config.senderSmtpPort.getD 0
        mode := if s.config.senderLmtp then "LMTP" else "SMTP"
        tls := s.config.senderSmtpSecure
        ignoreCRT := s.config.senderIgnoreInvalidCert }
     timer :=
      { enabled := if s.timerIntervalMs ≤ 0 then true else false
        sec := s.timerIntervalMs / 1000 }
     storage := { ready := st.1 } },
   st.2)

/-! ## Upstream sender (`DMailSender.forwardEml`) -/

/-- `mailparser`'s `to` field: absent, a single `AddressObject`, or an
array of `AddressObject`s; each object is represented by its `.text`. -/
inductive AddrField
  | missing
  | single (text : String)
  | list (items : List String)
deriving DecidableEq, Repr

/-- The JS value produced by `convertAddress`: a string or a string
array. -/
inductive JsAddr
  | str (s : String)
  | arr (l : List String)
deriving DecidableEq, Repr

/-- `convertAddress(addressObject)`: `undefined` for a missing field, the
array of `.text`s for an array, the `.text` for a single object. -/
def convertAddress : AddrField → Option JsAddr
  | .missing => none
  | .list items => some (.arr items)
  | .single t => some (.str t)

/-- JS falsiness of the `convertAddress` result as tested by `if (!to)`:
`undefined` and the empty string are falsy, every array is truthy. -/
def jsFalsyAddr : Option JsAddr → Bool
  | none => true
  | some (.str t) => t == ""
  | some (.arr _) => false

/-- The fields of a `simpleParser` result that `forwardEml` reads
(`from` is a keyword in Lean, hence `fromText` for `from.text`). -/
structure ParsedEmail where
  fromText : Option String
  toField : AddrField
  subject : Option String
  textBody : Option String
  htmlBody : Option String
deriving DecidableEq, Repr

/-- The `mailOptions` handed to `transporter.sendMail`. -/
structure MailOptions where
  fromText : String
  toVal : JsAddr
  subject : Option String
  textBody : Option String
  htmlBody : Option String
deriving DecidableEq, Repr

/-- Observable outcome of `forwardEml`: the promise was rejected before
submission, or `transporter.sendMail` was invoked with the composed
options. -/
inductive ForwardEmlOut
  | rejectedWith (msg : String)
  | submitted (opts : MailOptions)
deriving DecidableEq, Repr

/-- `forwardEml(emailFilename)`: guard on sender readiness, file
existence, file kind and transporter presence; `readAndParse` is the
outcome of the `readFile` + `simpleParser` pipeline; reject when `from`
is missing or `convertAddress(to)` is falsy, otherwise submit the
composed message. -/
def forwardEml (ready : Bool) (statusMessage : String)
    (fileExists isDir hasTransporter : Bool)
    (readAndParse : Except String ParsedEmail) (emailFilename : String) :
    ForwardEmlOut :=
  if !ready then .rejectedWith statusMessage
  else if !fileExists then .rejectedWith (emailFilename ++ " does not exist")
  else if isDir then .rejectedWith (emailFilename ++ " is not a file")
  else if !hasTransporter then .rejectedWith "this.transporter is not ready"
  else
    match readAndParse with
    | .error e => .rejectedWith e
    | .ok parsed =>
      match parsed.fromText with
      | none => .rejectedWith "eml not contains <from> address"
      | some fromT =>
        let toConv := convertAddress parsed.toField
        if jsFalsyAddr toConv then .rejectedWith "eml not contains <to> address"
        else
          match toConv with
          | none => .rejectedWith "eml not contains <to> address"
          | some toV =>
            .submitted
              { fromText := fromT, toVal := toV, subject := parsed.subject
                textBody := parsed.textBody, htmlBody := parsed.htmlBody }

/-! ## Control API -/

/-- `trim()` on a JS string. -/
def jsTrim (s : String) : String :=
  String.mk
    (((s.data.dropWhile Char.isWhitespace).reverse.dropWhile
        Char.isWhitespace).reverse)

/-- `checkApiKey` middleware from the secured bootstrap (`main.ts`):
deny with 401 `Access denied` when the `api_key` query parameter is
missing, empty (JS falsy) or its trimmed value differs from the shared
secret; otherwise call `next()` (`none`). -/
def checkApiKey (apiKey : String) (submitted : Option String) :
    Option (Nat × String) :=
  match submitted with
  | none => some (401, "Access denied")
  | some k =>
    if k == "" then some (401, "Access denied")
    else if jsTrim k ≠ apiKey then some (401, "Access denied")
    else none

/-- A request against the control API: the path, the `api_key` query
parameter, and the `suspend_sender` / `suspend_listener` body fields. -/
structure ApiRequest where
  path : String
  apiKeyParam : Option String
  suspendSenderBody : Option String
  suspendListenerBody : Option String
deriving DecidableEq, Repr

/-- A control-API response: HTTP status and JSON body (the storage reply
carries the snapshot). -/
structure HttpOut where
  status : Nat
  body : String
  storage : Option DRemailerStorage
deriving DecidableEq, Repr

/-- The request handling of `startRemailerControlApi` (`routes.ts`):
dispatch on the path with **no** `api_key` check anywhere.  The control
endpoint applies truthy `suspend_*` body fields via
`suspend* (value == "true")` and answers 200 `"done"` (400 when neither
field is recognized); the status endpoint answers 200 with `getSummary`;
the storage endpoint runs `scanStorageAsync` and answers 200 with the
snapshot or 400 with the error message. -/
def routesDispatch (req : ApiRequest) (s : RState) (fs : Fs) :
    HttpOut × RState :=
  if req.path == "/api/remailer/control" then
    let afterSender :=
      if jsTruthyS req.suspendSenderBody then
        (suspendSender s (req.suspendSenderBody.getD "" == "true")).1
      else s
    let afterListener :=
      if jsTruthyS req.suspendListenerBody then
        (suspendListener afterSender
          (req.suspendListenerBody.getD "" == "true")).1
      else afterSender
    let done := jsTruthyS req.suspendSenderBody
      || jsTruthyS req.suspendListenerBody
    if done then (⟨200, "done", none⟩, afterListener)
    else (⟨400, "Request unknown", none⟩, afterListener)
  else if req.path == "/api/remailer/query/status" then
    let g := getSummary s fs.fsExists
    (⟨200, "status", none⟩, g.2)
  else if req.path == "/api/remailer/query/storage" then
    match scanStorageAsync s fs with
    | (.ok snap, s') => (⟨200, "storage", some snap⟩, s')
    | (.error e, s') => (⟨400, e, none⟩, s')
  else
    (⟨404, "", none⟩, s)

/-! ## Spec-side definitions

These follow the specification's wording and exist to be compared with
the definitions embedded from the source. -/

/-- Specification wording: a name "has extension `.eml`". -/
def hasEmlExt (s : String) : Bool := (".eml".data).isSuffixOf s.data

/-- Byte-wise `≤` on characters. -/
def charLe (a b : Char) : Bool := a.val ≤ b.val

/-- Lexicographic `≤` on character lists. -/
def lexLe : List Char → List Char → Bool
  | [], _ => true
  | _ :: _, [] => false
  | a :: as, b :: bs => if a = b then lexLe as bs else charLe a b

/-- Lexicographic `≤` on strings. -/
def strLeB (a b : String) : Bool := lexLe a.data b.data

/-- Insertion into a lexicographically sorted list of strings. -/
def insertSorted (x : String) : List String → List String
  | [] => [x]
  | y :: ys => if strLeB x y then x :: y :: ys else y :: insertSorted x ys

/-- Lexicographic insertion sort on strings. -/
def sortStrings (l : List String) : List String := l.foldr insertSorted []

/-- The queue content claimed by the specification for one directory:
non-directory entries with extension `.eml`, sorted lexicographically. -/
def specScanDir (l : List DirEntry) : List String :=
  sortStrings ((l.filter (fun e => !e.isDirectory && hasEmlExt e.name)).map
    (fun e => e.name))

/-- The file name claimed by the specification: like `saveFileName`, but
with the placeholder token substituted for missing recipients as well. -/
def claimedFileName (ts : String) (sessionId : String)
    (mailFrom : Option String) (rcptTo : Option (List String)) : String :=
  let fromAddr := match mailFrom with
    | some a => jsReplaceAtDot a
    | none => "bho"
  let toAddrStr := match rcptTo with
    | some l => jsJoin "-" (l.map jsReplaceAtDot)
    | none => "bho"
  ts ++ "_" ++ sessionId ++ "_" ++ fromAddr ++ "_" ++ toAddrStr ++ ".eml"

/-! ## Helper lemmas -/

/-- A string is determined by its character data. -/
theorem string_data_inj {a b : String} (h : a.data = b.data) : a = b := by
  cases a; cases b; exact congrArg String.mk h

/-- Character data of the one-character separator string. -/
theorem underscore_data : ("_" : String).data = ['_'] := rfl

/-- Splitting at the first separator is unambiguous when neither prefix
contains the separator. -/
theorem sep_inj : ∀ (a₁ a₂ r₁ r₂ : List Char), '_' ∉ a₁ → '_' ∉ a₂ →
    a₁ ++ '_' :: r₁ = a₂ ++ '_' :: r₂ → a₁ = a₂ := by
  intro a₁
  induction a₁ with
  | nil =>
    intro a₂ r₁ r₂ _ h2 h
    cases a₂ with
    | nil => rfl
    | cons c cs =>
      exfalso
      simp only [List.nil_append, List.cons_append, List.cons.injEq] at h
      exact h2 (h.1 ▸ List.mem_cons_self c cs)
  | cons c cs ih =>
    intro a₂ r₁ r₂ h1 h2 h
    cases a₂ with
    | nil =>
      exfalso
      simp only [List.nil_append, List.cons_append, List.cons.injEq] at h
      exact h1 (h.1 ▸ List.mem_cons_self '_' _)
    | cons d ds =>
      simp only [List.cons_append, List.cons.injEq] at h
      have hcs := ih ds r₁ r₂ (fun hm => h1 (List.mem_cons_of_mem c hm))
        (fun hm => h2 (List.mem_cons_of_mem d hm)) h.2
      rw [h.1, hcs]

/-- A convenient base state: a fully initialised, ready remailer in timed
mode with all five storage directories available. -/
def baseState : RState :=
  { config :=
      { listenerAddress := some "0.0.0.0", listenerPort := some 2524
        listenerSecure := false, listenerLmtp := false
        senderSmtpHost := some "smtp.example.com", senderSmtpPort := some 587
        senderSmtpSecure := false, senderIgnoreInvalidCert := false
        senderLmtp := false, backupEnabled := true }
    statusReady := true, statusMessage := "Init SUCCESS"
    smtpServer := true, mailSenderPresent := true, mailSenderReady := true
    timerIntervalMs := 2000
    emlParkingDir := some "/st/eml-parking"
    emlDirectDir := some "/st/eml-direct"
    emlErrorDir := some "/st/eml-error"
    emlParkingBackupDir := some "/st/eml-parking-backup"
    emlDirectBackupDir := some "/st/eml-direct-backup"
    emlParkingQueue := [], emlDirectQueue := [], emlErrorQueue := []
    emlParkingBackupQueue := [], emlDirectBackupQueue := []
    emlScanning := false, listenerRunning := true
    senderPaused := false, listenerPaused := false }

/-! ## Claim theorems -/

/-- Claim C10: when the parking directory is available and the in-memory
parking queue is empty, `forwardOne` returns `undefined`, performs no
forward, rename or unlink, and leaves the whole state (all five queues,
the status record and the pause flags) unchanged. -/
theorem C10_forwardOne_empty_queue (s : RState) (pd : String)
    (upstream : PromiseRes) (unlinkOk : Bool)
    (hdir : s.emlParkingDir = some pd) (hq : s.emlParkingQueue = []) :
    forwardOne s upstream unlinkOk =
      { state := s, ret := FwdOneRet.retUndefined, fsOps := []
        errorCount := 0, forwardingCount := 0, forwardedCount := 0 } := by
  unfold forwardOne
  rw [hdir, hq]

/-- Witness for C10 at a concrete ready state with an empty parking
queue. -/
theorem C10_forwardOne_empty_queue_witness :
    forwardOne baseState (PromiseRes.resolved "250 OK") true =
      { state := baseState, ret := FwdOneRet.retUndefined, fsOps := []
        errorCount := 0, forwardingCount := 0, forwardedCount := 0 } :=
  C10_forwardOne_empty_queue baseState "/st/eml-parking"
    (PromiseRes.resolved "250 OK") true rfl rfl

/-- Claim C2: when the head of the parking queue is popped and the
upstream forward fails, `forwardOne` issues exactly the rename of the file
from the parking directory into the error directory (no backup move, no
unlink), re-appends the filename to the tail of the in-memory parking
queue, and returns the error. -/
theorem C2_forwardOne_failure (s : RState) (pd ed n : String)
    (rest : List String) (e : String) (unlinkOk : Bool)
    (hdir : s.emlParkingDir = some pd) (herr : s.emlErrorDir = some ed)
    (hq : s.emlParkingQueue = n :: rest) (hms : s.mailSenderPresent = true) :
    forwardOne s (PromiseRes.failed e) unlinkOk =
      { state := { s with emlParkingQueue := rest ++ [n] }
        ret := FwdOneRet.retErr e
        fsOps := [FsOp.rename ⟨pd, n⟩ ⟨ed, n⟩]
        errorCount := 1, forwardingCount := 1, forwardedCount := 0 } := by
  unfold forwardOne forward moveToError
  rw [hdir, hq, hms, herr]
  rfl

/-- Witness for C2 at a concrete state with two queued files and a failing
upstream. -/
theorem C2_forwardOne_failure_witness :
    forwardOne { baseState with emlParkingQueue := ["a.eml", "b.eml"] }
        (PromiseRes.failed "upstream refused") true =
      { state := { baseState with emlParkingQueue := ["b.eml", "a.eml"] }
        ret := FwdOneRet.retErr "upstream refused"
        fsOps := [FsOp.rename ⟨"/st/eml-parking", "a.eml"⟩
          ⟨"/st/eml-error", "a.eml"⟩]
        errorCount := 1, forwardingCount := 1, forwardedCount := 0 } :=
  C2_forwardOne_failure { baseState with emlParkingQueue := ["a.eml", "b.eml"] }
    "/st/eml-parking" "/st/eml-error" "a.eml" ["b.eml"] "upstream refused" true
    rfl rfl rfl rfl

/-- Claim C5: while `listenerPaused` is true, every `onData` invocation
pipes the body into the null sink, answers the client with an error,
fires `onReject` once, creates no file, calls no save and no forward, and
leaves the state (hence every queue) unchanged. -/
theorem C5_onData_listener_paused (s : RState) (sess : Session) (ts : String)
    (saveResult : Option String) (upstream : PromiseRes) (unlinkOk : Bool)
    (h : s.listenerPaused = true) :
    (onData s sess ts saveResult upstream unlinkOk).state = s ∧
    (onData s sess ts saveResult upstream unlinkOk).pipedNull = true ∧
    (∃ m, (onData s sess ts saveResult upstream unlinkOk).response
      = some (some m)) ∧
    (onData s sess ts saveResult upstream unlinkOk).rejectCount = 1 ∧
    (onData s sess ts saveResult upstream unlinkOk).fsOps = [] ∧
    (onData s sess ts saveResult upstream unlinkOk).savingCount = 0 ∧
    (onData s sess ts saveResult upstream unlinkOk).forwardingCount = 0 := by
  cases hst : s.statusReady <;>
    simp [onData, h, hst, rejectOut]

/-- Witness for C5 at a concrete paused state. -/
theorem C5_onData_listener_paused_witness :
    (onData { baseState with listenerPaused := true }
        ⟨"s5", some "a@b.c", some ["d@e.f"]⟩ "20240101000000000"
        none (PromiseRes.resolved "ok") true).state
      = { baseState with listenerPaused := true } ∧
    (onData { baseState with listenerPaused := true }
        ⟨"s5", some "a@b.c", some ["d@e.f"]⟩ "20240101000000000"
        none (PromiseRes.resolved "ok") true).fsOps = [] :=
  ⟨(C5_onData_listener_paused { baseState with listenerPaused := true }
      ⟨"s5", some "a@b.c", some ["d@e.f"]⟩ "20240101000000000"
      none (PromiseRes.resolved "ok") true rfl).1,
   (C5_onData_listener_paused { baseState with listenerPaused := true }
      ⟨"s5", some "a@b.c", some ["d@e.f"]⟩ "20240101000000000"
      none (PromiseRes.resolved "ok") true rfl).2.2.2.2.1⟩

/-- Claim C1 (code bug evidence): in direct mode with the system ready,
the listener not paused, the direct directory available and the sender
paused, `onData` streams the message into the direct directory and does
not invoke `forward`, but the completion callback is never invoked
(`response = none`): the client is not acknowledged with 250 OK. -/
theorem C1_direct_paused_never_acknowledged :
    onData { baseState with timerIntervalMs := 0, senderPaused := true }
        ⟨"sess1", some "a@b.c", some ["d@e.f"]⟩ "20240101000000000"
        none (PromiseRes.resolved "250 OK") true =
      { state := { baseState with timerIntervalMs := 0, senderPaused := true }
        pipedNull := false
        response := none
        rejectCount := 0
        fsOps := [FsOp.create
          ⟨"/st/eml-direct", "20240101000000000_sess1_a-b-c_d-e-f.eml"⟩]
        savingCount := 1, savedCount := 1
        forwardingCount := 0, forwardedCount := 0, errorCount := 0 } := by
  decide

/-- Claim C6 (code bug evidence): `getSummary` reports
`timer.enabled = false` in a state with `timerIntervalMs = 2000 > 0` and
`timer.enabled = true` in a state with `timerIntervalMs = 0`; the
reported seconds are `timerIntervalMs / 1000`. -/
theorem C6_getSummary_timer_inverted :
    (getSummary baseState (fun _ => true)).1.timer
        = { enabled := false, sec := 2 } ∧
    baseState.timerIntervalMs = 2000 ∧
    (getSummary { baseState with timerIntervalMs := 0 }
        (fun _ => true)).1.timer = { enabled := true, sec := 0 } := by
  decide

/-- Claim C3 (counterexample): with storage ready and not scanning, a
directory whose enumeration order is `b.eml`, `a.eml`, `eml` produces the
snapshot `[b.eml, a.eml, eml]`: it contains the entry `eml`, which does
not have extension `.eml`, and it differs from the sorted `.eml`-only
list the claim states. -/
theorem C3_scan_counterexample :
    (scanStorageSync baseState
        ⟨fun _ => true,
         fun d => if d == "/st/eml-parking" then
            [⟨"b.eml", false⟩, ⟨"a.eml", false⟩, ⟨"eml", false⟩]
          else []⟩).1
      = some ⟨["b.eml", "a.eml", "eml"], [], [], [], []⟩ ∧
    specScanDir [⟨"b.eml", false⟩, ⟨"a.eml", false⟩, ⟨"eml", false⟩]
      = ["a.eml", "b.eml"] ∧
    (["b.eml", "a.eml", "eml"] : List String) ≠ ["a.eml", "b.eml"] ∧
    hasEmlExt "eml" = false := by
  decide

/-- Claim C3 (amended): with all five directories available and no scan
in progress, a rescan replaces each of the five in-memory queues with the
non-directory entries of the corresponding directory whose last
dot-separated name component is `eml` (so a bare name `eml` also
qualifies), kept in directory-enumeration order, not sorted; the async
variant's `findFiles` applies the same filter. -/
theorem C3_scan_replaces_queues (s : RState) (fs : Fs) (pd dd ed pbd dbd : String)
    (h1 : s.emlParkingDir = some pd) (h2 : s.emlDirectDir = some dd)
    (h3 : s.emlErrorDir = some ed) (h4 : s.emlParkingBackupDir = some pbd)
    (h5 : s.emlDirectBackupDir = some dbd)
    (e1 : fs.fsExists pd = true) (e2 : fs.fsExists dd = true)
    (e3 : fs.fsExists ed = true) (e4 : fs.fsExists pbd = true)
    (e5 : fs.fsExists dbd = true) (hscan : s.emlScanning = false) :
    (scanStorageSync s fs).1 =
      some ⟨scanFilterEml (fs.listing pd), scanFilterEml (fs.listing dd),
            scanFilterEml (fs.listing ed), scanFilterEml (fs.listing pbd),
            scanFilterEml (fs.listing dbd)⟩ ∧
    (scanStorageSync s fs).2.emlParkingQueue = scanFilterEml (fs.listing pd) ∧
    (scanStorageSync s fs).2.emlDirectQueue = scanFilterEml (fs.listing dd) ∧
    (scanStorageSync s fs).2.emlErrorQueue = scanFilterEml (fs.listing ed) ∧
    (scanStorageSync s fs).2.emlParkingBackupQueue
      = scanFilterEml (fs.listing pbd) ∧
    (scanStorageSync s fs).2.emlDirectBackupQueue
      = scanFilterEml (fs.listing dbd) ∧
    (scanStorageSync s fs).2.statusReady = true ∧
    (scanStorageSync s fs).2.emlScanning = false ∧
    (scanStorageAsync s fs).1 =
      Except.ok ⟨scanFilterEml (fs.listing pd), scanFilterEml (fs.listing dd),
            scanFilterEml (fs.listing ed), scanFilterEml (fs.listing pbd),
            scanFilterEml (fs.listing dbd)⟩ ∧
    (∀ dl, findFiles dl (some "eml") = scanFilterEml dl) := by
  unfold scanStorageSync scanStorageAsync isStorageReadyChecked
  rw [h1, h2, h3, h4, h5]
  simp [e1, e2, e3, e4, e5, hscan, findFiles, scanFilterEml]

/-- The directory contents used by the C3 witness. -/
def fs3w : Fs :=
  ⟨fun _ => true,
   fun d => if d == "/st/eml-parking" then [⟨"x.eml", false⟩] else []⟩

/-- Witness for C3 at a concrete file system holding one parking file. -/
theorem C3_scan_replaces_queues_witness :
    (scanStorageSync baseState fs3w).1 = some ⟨["x.eml"], [], [], [], []⟩ :=
  ((C3_scan_replaces_queues baseState fs3w "/st/eml-parking" "/st/eml-direct"
      "/st/eml-error" "/st/eml-parking-backup" "/st/eml-direct-backup"
      rfl rfl rfl rfl rfl rfl rfl rfl rfl rfl rfl).1).trans (by decide)

/-- Claim C4 (counterexample): for a message with a missing recipient
list the stored filename carries an empty recipient component rather than
the placeholder token; and two messages with equal timestamps, distinct
session ids containing `_`, and suitable senders collide on the same
filename. -/
theorem C4_filename_counterexample :
    saveFileName "20240101000000000" "sid" (some "a@b.c") none
      = "20240101000000000_sid_a-b-c_.eml" ∧
    claimedFileName "20240101000000000" "sid" (some "a@b.c") none
      = "20240101000000000_sid_a-b-c_bho.eml" ∧
    ("20240101000000000_sid_a-b-c_.eml" : String)
      ≠ "20240101000000000_sid_a-b-c_bho.eml" ∧
    saveFileName "20240101000000000" "a" (some "b_c") none
      = saveFileName "20240101000000000" "a_b" (some "c") none ∧
    ("a" : String) ≠ "a_b" := by
  decide

/-- Claim C4 (amended): the stored filename is
`<timestamp>_<sessionId>_<sanitized-from>_<sanitized-to-list>.eml` with
`@` and `.` replaced by `-` and recipients joined by `-`; the placeholder
token `bho` is substituted only for a missing sender, while a missing
recipient list yields an empty component; and two messages with 17-digit
timestamps and distinct session ids that contain no underscore get
distinct filenames. -/
theorem C4_filename_amended :
    (∀ (ts sid a : String) (l : List String),
      saveFileName ts sid (some a) (some l) =
        ts ++ "_" ++ sid ++ "_" ++ jsReplaceAtDot a ++ "_"
          ++ jsJoin "-" (l.map jsReplaceAtDot) ++ ".eml") ∧
    (∀ (ts sid : String) (l : List String),
      saveFileName ts sid none (some l) =
        ts ++ "_" ++ sid ++ "_" ++ "bho" ++ "_"
          ++ jsJoin "-" (l.map jsReplaceAtDot) ++ ".eml") ∧
    (∀ (ts sid : String) (f : Option String),
      saveFileName ts sid f none = saveFileName ts sid f (some [])) ∧
    (∀ (ts₁ ts₂ sid₁ sid₂ : String) (f₁ f₂ : Option String)
        (t₁ t₂ : Option (List String)),
      ts₁.length = 17 → ts₂.length = 17 →
      '_' ∉ sid₁.data → '_' ∉ sid₂.data → sid₁ ≠ sid₂ →
      saveFileName ts₁ sid₁ f₁ t₁ ≠ saveFileName ts₂ sid₂ f₂ t₂) := by
  refine ⟨fun ts sid a l => rfl, fun ts sid l => rfl, fun ts sid f => rfl,
    fun ts₁ ts₂ sid₁ sid₂ f₁ f₂ t₁ t₂ h17a h17b hn1 hn2 hne heq => ?_⟩
  have hd := congrArg String.data heq
  simp only [saveFileName, String.data_append, List.append_assoc,
    underscore_data, List.singleton_append] at hd
  have hlen : ts₁.data.length = ts₂.data.length := h17a.trans h17b.symm
  obtain ⟨-, h2⟩ := List.append_inj hd hlen
  simp only [List.cons_append, List.cons.injEq, true_and] at h2
  exact hne (string_data_inj (sep_inj _ _ _ _ hn1 hn2 h2))

/-- Witness for C4: two concrete messages with underscore-free session
ids receive distinct filenames. -/
theorem C4_filename_amended_witness :
    saveFileName "20240101000000000" "sidA" (some "a@b.c") (some ["d@e.f"])
      ≠ saveFileName "20240101000000000" "sidB" (some "a@b.c")
          (some ["d@e.f"]) :=
  C4_filename_amended.2.2.2 "20240101000000000" "20240101000000000"
    "sidA" "sidB" (some "a@b.c") (some "a@b.c") (some ["d@e.f"])
    (some ["d@e.f"]) (by decide) (by decide) (by decide) (by decide)
    (by decide)

/-- Claim C7 (code bug evidence): the secured bootstrap's `checkApiKey`
denies a missing or mismatched `api_key` with 401 `Access denied` and
passes a trimmed match on to the handler, but the control API actually
started (`startRemailerControlApi` in `routes.ts`) applies no gate: a
storage request carrying no `api_key` at all is answered 200 and the
rescan handler runs, replacing the in-memory queues. -/
theorem C7_storage_unauthenticated_not_denied :
    checkApiKey "dury" none = some (401, "Access denied") ∧
    checkApiKey "dury" (some "wrong") = some (401, "Access denied") ∧
    checkApiKey "dury" (some " dury ") = none ∧
    routesDispatch ⟨"/api/remailer/query/storage", none, none, none⟩
        baseState
        ⟨fun _ => true,
         fun d => if d == "/st/eml-parking" then [⟨"m1.eml", false⟩]
          else []⟩ =
      (⟨200, "storage", some ⟨["m1.eml"], [], [], [], []⟩⟩,
       { baseState with emlParkingQueue := ["m1.eml"] }) := by
  decide

/-- Claim C8 (counterexample): a spool file that parses with a sender and
an **empty** recipient array is submitted to the upstream transporter
(the empty JS array is truthy), with an empty recipient list. -/
theorem C8_forwardEml_empty_to_submitted :
    forwardEml true "Init SUCCESS" true false true
        (Except.ok ⟨some "a@b.c", AddrField.list [], some "subj",
          some "body", none⟩)
        "/st/eml-parking/m.eml" =
      ForwardEmlOut.submitted
        ⟨"a@b.c", JsAddr.arr [], some "subj", some "body", none⟩ := by
  decide

/-- Claim C8 (amended): for an existing, parsing spool file, `forwardEml`
rejects with a malformed-message error when the parsed `from` is missing,
when the parsed `to` field is missing, or when it is a single address
object with empty text; but a `to` field that parses to an address-object
array — even an empty one — is submitted to the transporter with that
recipient array. -/
theorem C8_forwardEml_guards (msg fn : String) (p : ParsedEmail) :
    (p.fromText = none →
      forwardEml true msg true false true (Except.ok p) fn
        = ForwardEmlOut.rejectedWith "eml not contains <from> address") ∧
    (∀ f, p.fromText = some f → p.toField = AddrField.missing →
      forwardEml true msg true false true (Except.ok p) fn
        = ForwardEmlOut.rejectedWith "eml not contains <to> address") ∧
    (∀ f, p.fromText = some f → p.toField = AddrField.single "" →
      forwardEml true msg true false true (Except.ok p) fn
        = ForwardEmlOut.rejectedWith "eml not contains <to> address") ∧
    (∀ f l, p.fromText = some f → p.toField = AddrField.list l →
      forwardEml true msg true false true (Except.ok p) fn
        = ForwardEmlOut.submitted
            ⟨f, JsAddr.arr l, p.subject, p.textBody, p.htmlBody⟩) := by
  refine ⟨fun h => ?_, fun f hf ht => ?_, fun f hf ht => ?_,
    fun f l hf ht => ?_⟩ <;>
    simp [forwardEml, *, convertAddress, jsFalsyAddr]

/-- Witness for C8 at concrete parsed messages. -/
theorem C8_forwardEml_guards_witness :
    forwardEml true "m" true false true
        (Except.ok ⟨none, AddrField.missing, none, none, none⟩) "f.eml"
      = ForwardEmlOut.rejectedWith "eml not contains <from> address" ∧
    forwardEml true "m" true false true
        (Except.ok ⟨some "x@y.z", AddrField.missing, none, none, none⟩)
        "f.eml"
      = ForwardEmlOut.rejectedWith "eml not contains <to> address" :=
  ⟨(C8_forwardEml_guards "m" "f.eml"
      ⟨none, AddrField.missing, none, none, none⟩).1 rfl,
   (C8_forwardEml_guards "m" "f.eml"
      ⟨some "x@y.z", AddrField.missing, none, none, none⟩).2.1
      "x@y.z" rfl rfl⟩

/-- Claim C9 (counterexample): `suspendSender(false)` on a state whose
sender is not paused changes nothing, yet emits a log event (the
unconditional debug trace), so "a log event is emitted only when the
flag's value actually changes" fails as stated. -/
theorem C9_suspendSender_logs_without_change :
    baseState.senderPaused = false ∧
    (suspendSender baseState false).1.senderPaused = false ∧
    (suspendSender baseState false).2
      = [(LogLevel.dbg, "Suspending sender...")] ∧
    (suspendSender baseState false).2 ≠ [] := by
  decide

/-- Claim C9 (amended): `suspendSender(b)` and `suspendListener(b)` set
their flag to `b` and modify no other state (hence each is idempotent);
`suspendListener` emits log events only when the flag changes, and
`suspendSender` emits its pause/un-pause notice only on change but always
emits one fixed debug trace line. -/
theorem C9_suspend_flags (s : RState) (b : Bool) :
    (suspendSender s b).1 = { s with senderPaused := b } ∧
    (suspendListener s b).1 = { s with listenerPaused := b } ∧
    (suspendSender (suspendSender s b).1 b).1 = (suspendSender s b).1 ∧
    (suspendListener (suspendListener s b).1 b).1
      = (suspendListener s b).1 ∧
    (∀ ev ∈ (suspendSender s b).2, ev.1 ≠ LogLevel.dbg →
      s.senderPaused ≠ b) ∧
    ((suspendListener s b).2 ≠ [] → s.listenerPaused ≠ b) ∧
    (suspendSender (suspendSender s b).1 b).2
      = [(LogLevel.dbg, "Suspending sender...")] ∧
    (suspendListener (suspendListener s b).1 b).2 = [] := by
  cases hsp : s.senderPaused <;> cases hlp : s.listenerPaused <;> cases b <;>
    simp [suspendSender, suspendListener, hsp, hlp]

/-- Witness for C9 at a concrete state. -/
theorem C9_suspend_flags_witness :
    (suspendSender baseState true).1
      = { baseState with senderPaused := true } ∧
    (suspendListener baseState true).1
      = { baseState with listenerPaused := true } :=
  ⟨(C9_suspend_flags baseState true).1,
   (C9_suspend_flags baseState true).2.1⟩

end Dremailer
